import Mathlib

/-!
# examples/threading/threading.c

A shallow embedding of the two functions of `threading.c`:

* `threadfunc`, the worker that sleeps, locks a mutex, sleeps again and
  unlocks it, recording in its descriptor whether every step went well;
* `start_thread_obtaining_mutex`, the launcher that allocates and fills the
  descriptor and hands it to `pthread_create`.

The C library calls (`usleep`, `pthread_mutex_lock`, `pthread_mutex_unlock`,
`malloc`, `pthread_create`, `free`, and the `printf` behind the two logging
macros) are external.  Each call is recorded, in program order, in a trace of
`Event`s; the value a call returns is a parameter of the embedded function, so
that a theorem quantifies over every outcome the library can produce.
-/

namespace Threading

/-! ## Data model -/

/-- An address.  The null pointer is address `0`. -/
abbrev Ptr := Nat

/-- The null pointer `NULL`. -/
def NULL : Ptr := 0

/-- Modelled from the spec: `struct thread_data` is declared in `threading.h`,
which is not among the sources.  The four fields are the ones `threading.c`
reads and writes (`mutex`, `wait_to_obtain_ms`, `wait_to_release_ms`,
`thread_complete_success`), which section 3 of the specification lists as the
lock reference, the two integer delays and the boolean outcome flag.  The two
delays are C `int`s: they are printed with `%d` and assigned from the `int`
parameters of `start_thread_obtaining_mutex`. -/
structure thread_data where
  mutex : Ptr
  wait_to_obtain_ms : Int
  wait_to_release_ms : Int
  thread_complete_success : Bool
deriving DecidableEq

/-- The functions defined in `threading.c`, as values a function pointer can
take. -/
inductive Fn where
  | threadfunc
  | start_thread_obtaining_mutex
deriving DecidableEq

/-- One call to an external function, with the arguments it received.

* `DEBUG_LOG msg args` and `ERROR_LOG msg args` are the two logging macros
  (both expand to one `printf`); `msg` is the format string given to the macro
  and `args` the integers that follow it.
* `usleep usec` carries the argument as `usleep` sees it, a `useconds_t`.
* `pthread_create thread start_routine arg pointee` carries, besides the three
  arguments the source passes (the attribute argument is always `NULL`), the
  contents of the descriptor `arg` points to at the moment of the call. -/
inductive Event where
  | DEBUG_LOG (msg : String) (args : List Int)
  | ERROR_LOG (msg : String) (args : List Int)
  | usleep (usec : Nat)
  | pthread_mutex_lock (mutex : Ptr)
  | pthread_mutex_unlock (mutex : Ptr)
  | malloc
  | pthread_create (thread : Ptr) (start_routine : Fn) (arg : Ptr) (pointee : thread_data)
  | free (ptr : Ptr)
deriving DecidableEq

/-- The part of the machine state the two functions touch: the descriptors in
memory, by address, and the external calls made so far, oldest first. -/
structure World where
  mem : Ptr → thread_data
  trace : List Event

/-- Store `d` at address `p`. -/
def World.write (w : World) (p : Ptr) (d : thread_data) : World :=
  { w with mem := fun q => if q = p then d else w.mem q }

/-- Record one external call. -/
def World.call (w : World) (e : Event) : World :=
  { w with trace := w.trace ++ [e] }

/-! ## Machine integers -/

/-- Largest value of a 32-bit `int`. -/
def INT_MAX : Int := 2147483647

/-- Reduce a mathematical integer to the 32-bit two's-complement `int` with the
same low 32 bits. -/
def wrap_int (x : Int) : Int := (x + 2147483648) % 4294967296 - 2147483648

/-- The C expression `a * b` on two `int`s.  Signed overflow is undefined in
ISO C; it is modelled as the wrap-around the multiplication instruction of a
two's-complement machine produces. -/
def int_mul (a b : Int) : Int := wrap_int (a * b)

/-- Conversion of an `int` argument to the 32-bit unsigned `useconds_t`
parameter of `usleep`: reduction modulo `2^32`. -/
def to_useconds_t (x : Int) : Nat := (x % 4294967296).toNat

/-! ## The worker: `threadfunc` -/

/-- The function `threadfunc` (threading.c, lines 12-51).

`lock_rc` and `unlock_rc` are the values returned by `pthread_mutex_lock` and
`pthread_mutex_unlock` (`0` is success); `unlock_rc` is only looked at when the
unlock call is made.  The result is the returned pointer and the world after
the call. -/
def threadfunc (lock_rc unlock_rc : Int) (thread_param : Ptr) (w : World) : Ptr × World :=
  -- struct thread_data* thread_func_args = (struct thread_data *) thread_param;
  let thread_func_args : Ptr := thread_param
  -- thread_func_args->thread_complete_success = false;
  let w := w.write thread_func_args
    { w.mem thread_func_args with thread_complete_success := false }
  let w := w.call (.DEBUG_LOG "Thread starting, waiting %d ms to obtain mutex"
    [(w.mem thread_func_args).wait_to_obtain_ms])
  -- usleep(thread_func_args->wait_to_obtain_ms * 1000);
  let w := w.call (.usleep (to_useconds_t (int_mul (w.mem thread_func_args).wait_to_obtain_ms 1000)))
  let w := w.call (.DEBUG_LOG "Attempting to obtain mutex..." [])
  -- if (pthread_mutex_lock(thread_func_args->mutex) != 0)
  let w := w.call (.pthread_mutex_lock (w.mem thread_func_args).mutex)
  if lock_rc ≠ 0 then
    let w := w.call (.ERROR_LOG "Failed to obtain mutex in thread." [])
    (thread_param, w)
  else
    let w := w.call (.DEBUG_LOG "Mutex obtained, waiting %d ms to release it"
      [(w.mem thread_func_args).wait_to_release_ms])
    -- usleep(thread_func_args->wait_to_release_ms * 1000);
    let w := w.call (.usleep (to_useconds_t (int_mul (w.mem thread_func_args).wait_to_release_ms 1000)))
    let w := w.call (.DEBUG_LOG "Attempting to release mutex..." [])
    -- if (pthread_mutex_unlock(thread_func_args->mutex) != 0)
    let w := w.call (.pthread_mutex_unlock (w.mem thread_func_args).mutex)
    if unlock_rc ≠ 0 then
      let w := w.call (.ERROR_LOG "Failed to release mutex in thread." [])
      (thread_param, w)
    else
      let w := w.call (.DEBUG_LOG "Mutex released. Thread completed successfully." [])
      -- thread_func_args->thread_complete_success = true;
      let w := w.write thread_func_args
        { w.mem thread_func_args with thread_complete_success := true }
      (thread_param, w)

/-! ## The launcher: `start_thread_obtaining_mutex` -/

/-- The function `start_thread_obtaining_mutex` (threading.c, lines 54-89).

`malloc_ret` is the pointer `malloc` returns (`NULL` on failure) and
`create_rc` the value `pthread_create` returns (`0` is success).  The result is
the returned `bool` and the world after the call. -/
def start_thread_obtaining_mutex (malloc_ret : Ptr) (create_rc : Int)
    (thread : Ptr) (mutex : Ptr) (wait_to_obtain_ms wait_to_release_ms : Int)
    (w : World) : Bool × World :=
  -- struct thread_data *data = (struct thread_data *)malloc(sizeof(struct thread_data));
  let w := w.call .malloc
  let data : Ptr := malloc_ret
  if data = NULL then
    let w := w.call (.ERROR_LOG "Failed to allocate memory for thread_data." [])
    (false, w)
  else
    let w := w.write data { w.mem data with mutex := mutex }
    let w := w.write data { w.mem data with wait_to_obtain_ms := wait_to_obtain_ms }
    let w := w.write data { w.mem data with wait_to_release_ms := wait_to_release_ms }
    let w := w.write data { w.mem data with thread_complete_success := false }
    -- int rc = pthread_create(thread, NULL, threadfunc, data);
    let w := w.call (.pthread_create thread .threadfunc data (w.mem data))
    let rc : Int := create_rc
    if rc ≠ 0 then
      let w := w.call (.ERROR_LOG "Failed to create thread: %d" [rc])
      let w := w.call (.free data)
      (false, w)
    else
      (true, w)

/-! ## Reading a trace -/

/-- The calls made between world `w` and a later world `w2`. -/
def emitted (w w2 : World) : List Event := w2.trace.drop w.trace.length

/-- Holds of the two logging macros. -/
def Event.is_log : Event → Bool
  | .DEBUG_LOG _ _ => true
  | .ERROR_LOG _ _ => true
  | _ => false

/-- The calls of a trace other than logging, in order. -/
def operations (t : List Event) : List Event := t.filter (fun e => !e.is_log)

/-- Holds of a call to `usleep`. -/
def Event.is_usleep : Event → Bool
  | .usleep _ => true
  | _ => false

/-- Holds of a call to `pthread_mutex_lock`. -/
def Event.is_lock : Event → Bool
  | .pthread_mutex_lock _ => true
  | _ => false

/-- Holds of a call to `pthread_mutex_unlock`. -/
def Event.is_unlock : Event → Bool
  | .pthread_mutex_unlock _ => true
  | _ => false

/-- Holds of a call to `pthread_create`. -/
def Event.is_create : Event → Bool
  | .pthread_create _ _ _ _ => true
  | _ => false

/-- Holds of a call to `free`. -/
def Event.is_free : Event → Bool
  | .free _ => true
  | _ => false

/-! ## Several workers and the mutex library

`threadfunc` cut into pieces at the points where the thread can be suspended,
a mutex library that reacts to the `pthread_mutex_lock` and
`pthread_mutex_unlock` calls the pieces make, and a scheduler that interleaves
the pieces of several workers. -/

/-- Where a worker stands inside `threadfunc`. -/
inductive Pc where
  /-- At the opening brace (line 13). -/
  | entry
  /-- Back from the first `usleep` (line 24). -/
  | before_lock
  /-- Inside the call of `pthread_mutex_lock` (line 28): the call is made and
  has not returned. -/
  | in_lock
  /-- Holding the mutex: `pthread_mutex_lock` returned `0` (line 32). -/
  | holding
  /-- Back from the second `usleep` (line 35). -/
  | before_unlock
  /-- After one of the three `return` statements. -/
  | returned
deriving DecidableEq

/-- Holds of the two places between a lock call that returned `0` and the
unlock call. -/
def Pc.in_hold_window : Pc → Bool
  | .holding => true
  | .before_unlock => true
  | _ => false

/-- The piece of `threadfunc` a worker standing at `pc` runs next, on the
descriptor at `thread_param`.  For a worker inside the lock call, `rc` is the
value the call returns; for a worker about to unlock, `rc` is the value the
unlock call returns.  The result is the place the worker reaches and the world
it leaves; a worker that has returned has no next piece. -/
def worker_step (rc : Int) (thread_param : Ptr) : Pc → World → Option (Pc × World)
  | .entry, w =>
    -- lines 15-24
    let thread_func_args : Ptr := thread_param
    let w := w.write thread_func_args
      { w.mem thread_func_args with thread_complete_success := false }
    let w := w.call (.DEBUG_LOG "Thread starting, waiting %d ms to obtain mutex"
      [(w.mem thread_func_args).wait_to_obtain_ms])
    let w := w.call (.usleep (to_useconds_t (int_mul (w.mem thread_func_args).wait_to_obtain_ms 1000)))
    some (.before_lock, w)
  | .before_lock, w =>
    -- lines 26-28, up to the call of pthread_mutex_lock
    let thread_func_args : Ptr := thread_param
    let w := w.call (.DEBUG_LOG "Attempting to obtain mutex..." [])
    let w := w.call (.pthread_mutex_lock (w.mem thread_func_args).mutex)
    some (.in_lock, w)
  | .in_lock, w =>
    -- lines 28-32, from the return of pthread_mutex_lock
    let thread_func_args : Ptr := thread_param
    if rc ≠ 0 then
      let w := w.call (.ERROR_LOG "Failed to obtain mutex in thread." [])
      some (.returned, w)
    else
      let w := w.call (.DEBUG_LOG "Mutex obtained, waiting %d ms to release it"
        [(w.mem thread_func_args).wait_to_release_ms])
      some (.holding, w)
  | .holding, w =>
    -- line 35
    let thread_func_args : Ptr := thread_param
    let w := w.call (.usleep (to_useconds_t (int_mul (w.mem thread_func_args).wait_to_release_ms 1000)))
    some (.before_unlock, w)
  | .before_unlock, w =>
    -- lines 37-50
    let thread_func_args : Ptr := thread_param
    let w := w.call (.DEBUG_LOG "Attempting to release mutex..." [])
    let w := w.call (.pthread_mutex_unlock (w.mem thread_func_args).mutex)
    if rc ≠ 0 then
      let w := w.call (.ERROR_LOG "Failed to release mutex in thread." [])
      some (.returned, w)
    else
      let w := w.call (.DEBUG_LOG "Mutex released. Thread completed successfully." [])
      let w := w.write thread_func_args
        { w.mem thread_func_args with thread_complete_success := true }
      some (.returned, w)
  | .returned, _ => none

/-- One worker run on its own from place `pc`, for at most `fuel` pieces, with
`lock_rc` and `unlock_rc` the values its two mutex calls return. -/
def worker_run (lock_rc unlock_rc : Int) (thread_param : Ptr) : Nat → Pc → World → World
  | 0, _, w => w
  | fuel + 1, pc, w =>
    match worker_step (if pc = .in_lock then lock_rc else unlock_rc) thread_param pc w with
    | none => w
    | some (pc2, w2) => worker_run lock_rc unlock_rc thread_param fuel pc2 w2

/-- The mutex named by the first `pthread_mutex_lock` call in a list of calls,
if there is one. -/
def lock_request (t : List Event) : Option Ptr :=
  t.findSome? (fun e =>
    match e with
    | .pthread_mutex_lock m => some m
    | _ => none)

/-- The mutex named by the first `pthread_mutex_unlock` call in a list of
calls, if there is one. -/
def unlock_request (t : List Event) : Option Ptr :=
  t.findSome? (fun e =>
    match e with
    | .pthread_mutex_unlock m => some m
    | _ => none)

/-- A worker as the scheduler and the mutex library see it: the place it
stands at, the descriptor it was started on, and the mutex named by the
`pthread_mutex_lock` call it is inside, if it is inside one. -/
structure Task where
  pc : Pc
  thread_param : Ptr
  waiting : Option Ptr
deriving DecidableEq

/-- The mutexes with mutex `m` put in state `b` (`true` is locked). -/
def set_mutex (locked : Ptr → Bool) (m : Ptr) (b : Bool) : Ptr → Bool :=
  fun q => if q = m then b else locked q

/-- Holds when a worker that is inside a lock call on `waiting` cannot get
`rc` back now: `pthread_mutex_lock` does not return `0` while the mutex it
names is locked. -/
def lock_must_wait (locked : Ptr → Bool) (waiting : Option Ptr) (rc : Int) : Bool :=
  match waiting with
  | some m => decide (rc = 0) && locked m
  | none => false

/-- The mutexes after the lock call a worker was inside has returned `rc`: a
call that returns `0` has locked the mutex it named, a call that fails has
changed nothing. -/
def after_lock (rc : Int) (waiting : Option Ptr) (locked : Ptr → Bool) : Ptr → Bool :=
  match waiting with
  | some m => if rc = 0 then set_mutex locked m true else locked
  | none => locked

/-- The mutexes after an unlock call a piece made has returned `rc`: a call
that returns `0` has unlocked the mutex it named, a call that fails has changed
nothing. -/
def after_unlock (rc : Int) (request : Option Ptr) (locked : Ptr → Bool) : Ptr → Bool :=
  match request with
  | some m => if rc = 0 then set_mutex locked m false else locked
  | none => locked

/-- Several workers, the mutexes and the shared world: the state of every
mutex by address, the descriptors and the calls made so far, and the
workers. -/
structure System where
  locked : Ptr → Bool
  world : World
  tasks : List Task

/-- Worker `i` runs its next piece, the mutex call concerned returning `rc`.
The mutex library acts on the calls found in the trace of the piece: a
`pthread_mutex_lock` call leaves the worker inside that call, which returns in
a later move; a `pthread_mutex_unlock` call returns within the piece.  There is
no such move when there is no worker `i`, when it has returned, or when it is
inside a lock call that cannot return `rc` now. -/
def System.step (s : System) (i : Nat) (rc : Int) : Option System :=
  match s.tasks[i]? with
  | none => none
  | some t =>
    if lock_must_wait s.locked t.waiting rc = true then none
    else
      match worker_step rc t.thread_param t.pc s.world with
      | none => none
      | some (pc2, w2) =>
        let calls := emitted s.world w2
        some { locked := after_unlock rc (unlock_request calls) (after_lock rc t.waiting s.locked),
               world := w2,
               tasks := s.tasks.set i
                 { pc := pc2, thread_param := t.thread_param, waiting := lock_request calls } }

/-- The scheduler picks worker `c.1` and return value `c.2`; a pick that is no
move leaves the system as it is. -/
def System.pick (s : System) (c : Nat × Int) : System :=
  (s.step c.1 c.2).getD s

/-- The system after a sequence of picks. -/
def System.run (s : System) (schedule : List (Nat × Int)) : System :=
  schedule.foldl System.pick s

/-- The system just after workers have been started on the descriptors `ps`:
every worker is at the entry of `threadfunc`, inside no call. -/
def System.init (locked : Ptr → Bool) (w : World) (ps : List Ptr) : System :=
  { locked := locked, world := w,
    tasks := ps.map (fun p => { pc := Pc.entry, thread_param := p, waiting := none }) }

/-- The value of a counter that each worker increments after its lock call
returned `0` and decrements before its unlock call: the number of workers
between the two. -/
def System.holders (s : System) : Nat :=
  s.tasks.countP (fun t => t.pc.in_hold_window)

/-- Holds of a worker that is between a lock call that returned `0` and its
unlock call and whose descriptor, in memory `mem`, names mutex `m`. -/
def holds (mem : Ptr → thread_data) (m : Ptr) (t : Task) : Bool :=
  t.pc.in_hold_window && decide ((mem t.thread_param).mutex = m)

/-- The number of workers between a lock call that returned `0` and their
unlock call whose descriptor names mutex `m`. -/
def System.holders_of (s : System) (m : Ptr) : Nat :=
  s.tasks.countP (holds s.world.mem m)

/-- What the moves of the workers keep true: a worker is recorded inside a
lock call exactly when it stands in one, on the mutex of its descriptor; and
for every mutex, at most one worker holds it, and none while it is free. -/
def System.coherent (s : System) : Prop :=
  (∀ t ∈ s.tasks, t.waiting
      = if t.pc = .in_lock then some (s.world.mem t.thread_param).mutex else none)
  ∧ (∀ m, s.holders_of m ≤ (s.locked m).toNat)

/-! ## Sample inputs -/

/-- A world with an empty trace in which every address holds the descriptor
`{mutex = 1, wait_to_obtain_ms = 100, wait_to_release_ms = 200}` with the flag
already set. -/
def sample_world : World := ⟨fun _ => ⟨1, 100, 200, true⟩, []⟩

/-- A world with an empty trace whose descriptors ask for a wait of 4294968 ms
before the lock and of `INT_MAX` ms while holding it. -/
def long_wait_world : World := ⟨fun _ => ⟨1, 4294968, 2147483647, false⟩, []⟩

/-- A world with an empty trace in which the descriptor at address `p` names
mutex `p`: descriptors at different addresses name different mutexes. -/
def own_mutex_world : World := ⟨fun p => ⟨p, 0, 0, false⟩, []⟩

/-- All mutexes free. -/
def all_free : Ptr → Bool := fun _ => false

/-! ## Facts about the worker -/

/-- The trace after `threadfunc` when the lock call fails. -/
theorem threadfunc_trace_lock_failed (lock_rc unlock_rc : Int) (p : Ptr) (w : World)
    (h : lock_rc ≠ 0) :
    (threadfunc lock_rc unlock_rc p w).2.trace = w.trace ++
      [.DEBUG_LOG "Thread starting, waiting %d ms to obtain mutex" [(w.mem p).wait_to_obtain_ms],
       .usleep (to_useconds_t (int_mul (w.mem p).wait_to_obtain_ms 1000)),
       .DEBUG_LOG "Attempting to obtain mutex..." [],
       .pthread_mutex_lock (w.mem p).mutex,
       .ERROR_LOG "Failed to obtain mutex in thread." []] := by
  simp [threadfunc, World.call, World.write, h]

/-- The trace after `threadfunc` when the lock call succeeds and the unlock
call fails. -/
theorem threadfunc_trace_unlock_failed (unlock_rc : Int) (p : Ptr) (w : World)
    (h : unlock_rc ≠ 0) :
    (threadfunc 0 unlock_rc p w).2.trace = w.trace ++
      [.DEBUG_LOG "Thread starting, waiting %d ms to obtain mutex" [(w.mem p).wait_to_obtain_ms],
       .usleep (to_useconds_t (int_mul (w.mem p).wait_to_obtain_ms 1000)),
       .DEBUG_LOG "Attempting to obtain mutex..." [],
       .pthread_mutex_lock (w.mem p).mutex,
       .DEBUG_LOG "Mutex obtained, waiting %d ms to release it" [(w.mem p).wait_to_release_ms],
       .usleep (to_useconds_t (int_mul (w.mem p).wait_to_release_ms 1000)),
       .DEBUG_LOG "Attempting to release mutex..." [],
       .pthread_mutex_unlock (w.mem p).mutex,
       .ERROR_LOG "Failed to release mutex in thread." []] := by
  simp [threadfunc, World.call, World.write, h]

/-- The trace after `threadfunc` when both the lock and the unlock call
succeed. -/
theorem threadfunc_trace_succeeded (p : Ptr) (w : World) :
    (threadfunc 0 0 p w).2.trace = w.trace ++
      [.DEBUG_LOG "Thread starting, waiting %d ms to obtain mutex" [(w.mem p).wait_to_obtain_ms],
       .usleep (to_useconds_t (int_mul (w.mem p).wait_to_obtain_ms 1000)),
       .DEBUG_LOG "Attempting to obtain mutex..." [],
       .pthread_mutex_lock (w.mem p).mutex,
       .DEBUG_LOG "Mutex obtained, waiting %d ms to release it" [(w.mem p).wait_to_release_ms],
       .usleep (to_useconds_t (int_mul (w.mem p).wait_to_release_ms 1000)),
       .DEBUG_LOG "Attempting to release mutex..." [],
       .pthread_mutex_unlock (w.mem p).mutex,
       .DEBUG_LOG "Mutex released. Thread completed successfully." []] := by
  simp [threadfunc, World.call, World.write]

/-- Dropping the old trace from an extended trace leaves the extension. -/
theorem emitted_of_trace_eq (w w2 : World) (l : List Event) (h : w2.trace = w.trace ++ l) :
    emitted w w2 = l := by
  simp [emitted, h]

/-- The pointer `threadfunc` returns is its argument. -/
theorem threadfunc_fst (lock_rc unlock_rc : Int) (p : Ptr) (w : World) :
    (threadfunc lock_rc unlock_rc p w).1 = p := by
  unfold threadfunc
  simp only
  split_ifs <;> rfl

/-- The memory `threadfunc` leaves behind: only the flag of the descriptor at
`p` is written, and it ends up true exactly when both calls returned `0`. -/
theorem threadfunc_mem (lock_rc unlock_rc : Int) (p : Ptr) (w : World) :
    (threadfunc lock_rc unlock_rc p w).2.mem = fun q =>
      if q = p then
        { w.mem p with thread_complete_success := decide (lock_rc = 0 ∧ unlock_rc = 0) }
      else w.mem q := by
  unfold threadfunc
  simp only
  split_ifs with h1 h2 <;> funext q <;> by_cases hq : q = p <;>
    simp_all [World.call, World.write]

/-- The flag of the descriptor `threadfunc` returns. -/
theorem threadfunc_flag (lock_rc unlock_rc : Int) (p : Ptr) (w : World) :
    ((threadfunc lock_rc unlock_rc p w).2.mem
        (threadfunc lock_rc unlock_rc p w).1).thread_complete_success
      = decide (lock_rc = 0 ∧ unlock_rc = 0) := by
  rw [threadfunc_fst, threadfunc_mem]
  simp

/-! ## Facts about the launcher -/

/-- The value `start_thread_obtaining_mutex` returns. -/
theorem start_thread_fst (malloc_ret : Ptr) (create_rc : Int) (thread mutex : Ptr)
    (a b : Int) (w : World) :
    (start_thread_obtaining_mutex malloc_ret create_rc thread mutex a b w).1
      = decide (malloc_ret ≠ NULL ∧ create_rc = 0) := by
  unfold start_thread_obtaining_mutex
  simp only
  split_ifs with h1 h2 <;> simp_all

/-- The trace after `start_thread_obtaining_mutex` when `malloc` fails. -/
theorem start_thread_trace_alloc_failed (create_rc : Int) (thread mutex : Ptr)
    (a b : Int) (w : World) :
    (start_thread_obtaining_mutex NULL create_rc thread mutex a b w).2.trace = w.trace ++
      [.malloc, .ERROR_LOG "Failed to allocate memory for thread_data." []] := by
  simp [start_thread_obtaining_mutex, World.call]

/-- The trace after `start_thread_obtaining_mutex` when `malloc` succeeds. -/
theorem start_thread_trace_allocated (malloc_ret : Ptr) (create_rc : Int) (thread mutex : Ptr)
    (a b : Int) (w : World) (h : malloc_ret ≠ NULL) :
    (start_thread_obtaining_mutex malloc_ret create_rc thread mutex a b w).2.trace = w.trace ++
      [.malloc, .pthread_create thread .threadfunc malloc_ret ⟨mutex, a, b, false⟩] ++
      (if create_rc ≠ 0 then
        [.ERROR_LOG "Failed to create thread: %d" [create_rc], .free malloc_ret]
       else []) := by
  unfold start_thread_obtaining_mutex
  simp only
  split_ifs with h1 <;> first | exact absurd h1 h | simp [World.call, World.write]

/-! ## The worker's contract -/

/-- Claim C1: whatever the descriptor held before and whatever the lock and
unlock calls return, the descriptor `threadfunc` returns has its success flag
set exactly when the lock call and the unlock call both returned `0`; when
either of them failed the flag is false. -/
theorem threadfunc_success_iff (lock_rc unlock_rc : Int) (p : Ptr) (w : World) :
    (((threadfunc lock_rc unlock_rc p w).2.mem
        (threadfunc lock_rc unlock_rc p w).1).thread_complete_success = true
      ↔ (lock_rc = 0 ∧ unlock_rc = 0))
    ∧ (((threadfunc lock_rc unlock_rc p w).2.mem
        (threadfunc lock_rc unlock_rc p w).1).thread_complete_success = false
      ↔ (lock_rc ≠ 0 ∨ (lock_rc = 0 ∧ unlock_rc ≠ 0))) := by
  rw [threadfunc_flag]
  constructor
  · simp
  · by_cases h1 : lock_rc = 0 <;> by_cases h2 : unlock_rc = 0 <;> simp [h1, h2]

/-- Claim C3: when the lock call fails, the calls `threadfunc` makes are, apart
from logging, the first sleep and the lock call and nothing after it: no second
sleep, no unlock call, no second lock call; and the returned descriptor has its
success flag false. -/
theorem threadfunc_lock_failed_stops (lock_rc unlock_rc : Int) (p : Ptr) (w : World)
    (h : lock_rc ≠ 0) :
    (threadfunc lock_rc unlock_rc p w).2.trace
        = w.trace ++ emitted w (threadfunc lock_rc unlock_rc p w).2
    ∧ operations (emitted w (threadfunc lock_rc unlock_rc p w).2)
        = [.usleep (to_useconds_t (int_mul (w.mem p).wait_to_obtain_ms 1000)),
           .pthread_mutex_lock (w.mem p).mutex]
    ∧ (emitted w (threadfunc lock_rc unlock_rc p w).2).countP Event.is_usleep = 1
    ∧ (emitted w (threadfunc lock_rc unlock_rc p w).2).countP Event.is_lock = 1
    ∧ (emitted w (threadfunc lock_rc unlock_rc p w).2).countP Event.is_unlock = 0
    ∧ ((threadfunc lock_rc unlock_rc p w).2.mem
        (threadfunc lock_rc unlock_rc p w).1).thread_complete_success = false := by
  have ht := threadfunc_trace_lock_failed lock_rc unlock_rc p w h
  have he := emitted_of_trace_eq _ _ _ ht
  rw [threadfunc_flag, he]
  refine ⟨ht, ?_, ?_, ?_, ?_, ?_⟩ <;>
    simp [operations, Event.is_log, Event.is_usleep, Event.is_lock, Event.is_unlock, h]

/-- A failed lock (return value 22) on the sample world: one sleep of 100000
microseconds, one lock call, and the flag is false. -/
theorem threadfunc_lock_failed_stops_witness :
    (22 : Int) ≠ 0
    ∧ (threadfunc 22 0 7 sample_world).2.trace
        = sample_world.trace ++ emitted sample_world (threadfunc 22 0 7 sample_world).2
    ∧ operations (emitted sample_world (threadfunc 22 0 7 sample_world).2)
        = [.usleep 100000, .pthread_mutex_lock 1]
    ∧ (emitted sample_world (threadfunc 22 0 7 sample_world).2).countP Event.is_usleep = 1
    ∧ (emitted sample_world (threadfunc 22 0 7 sample_world).2).countP Event.is_lock = 1
    ∧ (emitted sample_world (threadfunc 22 0 7 sample_world).2).countP Event.is_unlock = 0
    ∧ ((threadfunc 22 0 7 sample_world).2.mem
        (threadfunc 22 0 7 sample_world).1).thread_complete_success = false :=
  ⟨by decide, threadfunc_lock_failed_stops 22 0 7 sample_world (by decide)⟩

/-- Claim C4: when the lock call succeeds, the calls `threadfunc` makes are,
apart from logging, exactly four, in this order and once each: the sleep
computed from `wait_to_obtain_ms`, the lock of the descriptor's mutex, the
sleep computed from `wait_to_release_ms`, the unlock of the same mutex. This
holds whatever the unlock call returns: a failed unlock is not retried. -/
theorem threadfunc_operations_in_order (lock_rc unlock_rc : Int) (p : Ptr) (w : World)
    (h : lock_rc = 0) :
    (threadfunc lock_rc unlock_rc p w).2.trace
        = w.trace ++ emitted w (threadfunc lock_rc unlock_rc p w).2
    ∧ operations (emitted w (threadfunc lock_rc unlock_rc p w).2)
        = [.usleep (to_useconds_t (int_mul (w.mem p).wait_to_obtain_ms 1000)),
           .pthread_mutex_lock (w.mem p).mutex,
           .usleep (to_useconds_t (int_mul (w.mem p).wait_to_release_ms 1000)),
           .pthread_mutex_unlock (w.mem p).mutex] := by
  subst h
  by_cases h2 : unlock_rc = 0
  · subst h2
    have ht := threadfunc_trace_succeeded p w
    have he := emitted_of_trace_eq _ _ _ ht
    rw [he]
    exact ⟨ht, by simp [operations, Event.is_log]⟩
  · have ht := threadfunc_trace_unlock_failed unlock_rc p w h2
    have he := emitted_of_trace_eq _ _ _ ht
    rw [he]
    exact ⟨ht, by simp [operations, Event.is_log]⟩

/-- A successful lock followed by a failed unlock (return value 1) on the
sample world: sleep 100000, lock, sleep 200000, unlock, and nothing more. -/
theorem threadfunc_operations_in_order_witness :
    (0 : Int) = 0
    ∧ (threadfunc 0 1 7 sample_world).2.trace
        = sample_world.trace ++ emitted sample_world (threadfunc 0 1 7 sample_world).2
    ∧ operations (emitted sample_world (threadfunc 0 1 7 sample_world).2)
        = [.usleep 100000, .pthread_mutex_lock 1, .usleep 200000, .pthread_mutex_unlock 1] :=
  ⟨rfl, threadfunc_operations_in_order 0 1 7 sample_world rfl⟩

/-- Claim C10: in every outcome `threadfunc` returns the pointer it was given,
and every descriptor in memory keeps its mutex reference and its two delays;
a descriptor other than the argument is not changed at all. Only the success
flag of the argument can differ from the input. -/
theorem threadfunc_returns_its_argument (lock_rc unlock_rc : Int) (p : Ptr) (w : World) :
    (threadfunc lock_rc unlock_rc p w).1 = p
    ∧ ∀ q : Ptr,
        ((threadfunc lock_rc unlock_rc p w).2.mem q).mutex = (w.mem q).mutex
        ∧ ((threadfunc lock_rc unlock_rc p w).2.mem q).wait_to_obtain_ms
            = (w.mem q).wait_to_obtain_ms
        ∧ ((threadfunc lock_rc unlock_rc p w).2.mem q).wait_to_release_ms
            = (w.mem q).wait_to_release_ms
        ∧ (q = p ∨ (threadfunc lock_rc unlock_rc p w).2.mem q = w.mem q) := by
  refine ⟨threadfunc_fst _ _ _ _, fun q => ?_⟩
  rw [threadfunc_mem]
  by_cases hq : q = p
  · subst hq
    simp
  · simp [hq]

/-! ## The launcher's contract -/

/-- Claim C2: `start_thread_obtaining_mutex` returns true exactly when `malloc`
returned a non-null pointer and `pthread_create` returned `0`; it returns false
when the allocation fails and when the spawn fails. -/
theorem start_thread_returns_true_iff (malloc_ret : Ptr) (create_rc : Int) (thread mutex : Ptr)
    (a b : Int) (w : World) :
    ((start_thread_obtaining_mutex malloc_ret create_rc thread mutex a b w).1 = true
      ↔ (malloc_ret ≠ NULL ∧ create_rc = 0))
    ∧ ((start_thread_obtaining_mutex malloc_ret create_rc thread mutex a b w).1 = false
      ↔ (malloc_ret = NULL ∨ (malloc_ret ≠ NULL ∧ create_rc ≠ 0))) := by
  rw [start_thread_fst]
  constructor
  · simp
  · by_cases h1 : malloc_ret = NULL <;> by_cases h2 : create_rc = 0 <;> simp [h1, h2]

/-- Claim C5: when `malloc` returns `NULL`, the only call the launcher makes
besides logging is that `malloc`: no `pthread_create` and no `free`; and it
returns false. -/
theorem start_thread_alloc_failed_spawns_nothing (malloc_ret : Ptr) (create_rc : Int)
    (thread mutex : Ptr) (a b : Int) (w : World) (h : malloc_ret = NULL) :
    (start_thread_obtaining_mutex malloc_ret create_rc thread mutex a b w).2.trace
        = w.trace ++
          emitted w (start_thread_obtaining_mutex malloc_ret create_rc thread mutex a b w).2
    ∧ operations
        (emitted w (start_thread_obtaining_mutex malloc_ret create_rc thread mutex a b w).2)
        = [.malloc]
    ∧ (emitted w (start_thread_obtaining_mutex malloc_ret create_rc thread mutex a b w).2).countP
        Event.is_create = 0
    ∧ (emitted w (start_thread_obtaining_mutex malloc_ret create_rc thread mutex a b w).2).countP
        Event.is_free = 0
    ∧ (start_thread_obtaining_mutex malloc_ret create_rc thread mutex a b w).1 = false := by
  subst h
  have ht := start_thread_trace_alloc_failed create_rc thread mutex a b w
  have he := emitted_of_trace_eq _ _ _ ht
  rw [start_thread_fst, he]
  refine ⟨ht, ?_, ?_, ?_, ?_⟩ <;>
    simp [operations, Event.is_log, Event.is_create, Event.is_free]

/-- A failed allocation on the sample world, with a `pthread_create` that would
have succeeded: `malloc` is the only call. -/
theorem start_thread_alloc_failed_spawns_nothing_witness :
    (0 : Ptr) = NULL
    ∧ (start_thread_obtaining_mutex 0 0 3 1 100 200 sample_world).2.trace
        = sample_world.trace ++
          emitted sample_world (start_thread_obtaining_mutex 0 0 3 1 100 200 sample_world).2
    ∧ operations
        (emitted sample_world (start_thread_obtaining_mutex 0 0 3 1 100 200 sample_world).2)
        = [.malloc]
    ∧ (emitted sample_world
        (start_thread_obtaining_mutex 0 0 3 1 100 200 sample_world).2).countP
        Event.is_create = 0
    ∧ (emitted sample_world
        (start_thread_obtaining_mutex 0 0 3 1 100 200 sample_world).2).countP
        Event.is_free = 0
    ∧ (start_thread_obtaining_mutex 0 0 3 1 100 200 sample_world).1 = false :=
  ⟨rfl, start_thread_alloc_failed_spawns_nothing 0 0 3 1 100 200 sample_world rfl⟩

/-- Claim C6: when `malloc` succeeds, the launcher calls `free` on the
descriptor exactly once, as its last call, and returns false if
`pthread_create` failed; it does not call `free` at all, and returns true, if
`pthread_create` succeeded. -/
theorem start_thread_frees_iff_spawn_failed (malloc_ret : Ptr) (create_rc : Int)
    (thread mutex : Ptr) (a b : Int) (w : World) (h : malloc_ret ≠ NULL) :
    (start_thread_obtaining_mutex malloc_ret create_rc thread mutex a b w).2.trace
        = w.trace ++
          emitted w (start_thread_obtaining_mutex malloc_ret create_rc thread mutex a b w).2
    ∧ operations
        (emitted w (start_thread_obtaining_mutex malloc_ret create_rc thread mutex a b w).2)
        = [.malloc, .pthread_create thread .threadfunc malloc_ret ⟨mutex, a, b, false⟩]
          ++ (if create_rc ≠ 0 then [.free malloc_ret] else [])
    ∧ (emitted w (start_thread_obtaining_mutex malloc_ret create_rc thread mutex a b w).2).filter
        Event.is_free = (if create_rc ≠ 0 then [.free malloc_ret] else [])
    ∧ (start_thread_obtaining_mutex malloc_ret create_rc thread mutex a b w).1
        = decide (create_rc = 0) := by
  have ht := start_thread_trace_allocated malloc_ret create_rc thread mutex a b w h
  rw [List.append_assoc] at ht
  have he := emitted_of_trace_eq _ _ _ ht
  rw [start_thread_fst, he]
  refine ⟨ht, ?_, ?_, ?_⟩
  · by_cases hc : create_rc = 0 <;> simp [operations, Event.is_log, hc]
  · by_cases hc : create_rc = 0 <;> simp [Event.is_free, hc]
  · simp [h]

/-- A spawn that fails with return value 11 on the sample world: the
descriptor at address 5 is freed once, after the `pthread_create` call, and the
launcher returns false. -/
theorem start_thread_frees_iff_spawn_failed_witness :
    (5 : Ptr) ≠ NULL
    ∧ (start_thread_obtaining_mutex 5 11 3 1 100 200 sample_world).2.trace
        = sample_world.trace ++
          emitted sample_world (start_thread_obtaining_mutex 5 11 3 1 100 200 sample_world).2
    ∧ operations
        (emitted sample_world (start_thread_obtaining_mutex 5 11 3 1 100 200 sample_world).2)
        = [.malloc, .pthread_create 3 .threadfunc 5 ⟨1, 100, 200, false⟩, .free 5]
    ∧ (emitted sample_world
        (start_thread_obtaining_mutex 5 11 3 1 100 200 sample_world).2).filter
        Event.is_free = [.free 5]
    ∧ (start_thread_obtaining_mutex 5 11 3 1 100 200 sample_world).1 = false :=
  ⟨by decide, start_thread_frees_iff_spawn_failed 5 11 3 1 100 200 sample_world (by decide)⟩

/-- Claim C9: when `malloc` succeeds, the launcher calls `pthread_create`
exactly once; the entry point is `threadfunc` and the argument is the allocated
descriptor, which at that moment holds the mutex reference and the two delays
the caller gave, whatever their sign, and a false success flag. -/
theorem start_thread_spawns_once (malloc_ret : Ptr) (create_rc : Int)
    (thread mutex : Ptr) (a b : Int) (w : World) (h : malloc_ret ≠ NULL) :
    (start_thread_obtaining_mutex malloc_ret create_rc thread mutex a b w).2.trace
        = w.trace ++
          emitted w (start_thread_obtaining_mutex malloc_ret create_rc thread mutex a b w).2
    ∧ (emitted w (start_thread_obtaining_mutex malloc_ret create_rc thread mutex a b w).2).filter
        Event.is_create
        = [.pthread_create thread .threadfunc malloc_ret
            { mutex := mutex, wait_to_obtain_ms := a, wait_to_release_ms := b,
              thread_complete_success := false }] := by
  have ht := start_thread_trace_allocated malloc_ret create_rc thread mutex a b w h
  rw [List.append_assoc] at ht
  have he := emitted_of_trace_eq _ _ _ ht
  rw [he]
  refine ⟨ht, ?_⟩
  by_cases hc : create_rc = 0 <;> simp [Event.is_create, hc]

/-- A launch with the negative delays -5 and -1 on the sample world: one
`pthread_create`, on a descriptor that holds -5 and -1. -/
theorem start_thread_spawns_once_witness :
    (5 : Ptr) ≠ NULL
    ∧ (start_thread_obtaining_mutex 5 0 3 1 (-5) (-1) sample_world).2.trace
        = sample_world.trace ++
          emitted sample_world (start_thread_obtaining_mutex 5 0 3 1 (-5) (-1) sample_world).2
    ∧ (emitted sample_world
        (start_thread_obtaining_mutex 5 0 3 1 (-5) (-1) sample_world).2).filter
        Event.is_create
        = [.pthread_create 3 .threadfunc 5
            { mutex := 1, wait_to_obtain_ms := -5, wait_to_release_ms := -1,
              thread_complete_success := false }] :=
  ⟨by decide, start_thread_spawns_once 5 0 3 1 (-5) (-1) sample_world (by decide)⟩

/-! ## The sleep requests -/

/-- A delay from 0 to 4294967 ms reaches `usleep` as that many thousand
microseconds. -/
theorem to_useconds_t_int_mul_exact (a : Int) (h0 : 0 ≤ a) (h1 : a ≤ 4294967) :
    (to_useconds_t (int_mul a 1000) : Int) = a * 1000 := by
  unfold to_useconds_t int_mul wrap_int
  omega

/-- Claim C8: with `wait_to_obtain_ms = 4294968` and `wait_to_release_ms =
INT_MAX`, both non-negative `int`s, the two sleeps `threadfunc` requests are of
704 and of 4294966296 microseconds, not of 4294968000 and 2147483647000: the
32-bit product wraps around. -/
theorem threadfunc_sleep_request_wraps :
    ((long_wait_world.mem 7).wait_to_obtain_ms = 4294968
      ∧ (long_wait_world.mem 7).wait_to_release_ms = INT_MAX)
    ∧ operations (emitted long_wait_world (threadfunc 0 0 7 long_wait_world).2)
        = [.usleep 704, .pthread_mutex_lock 1, .usleep 4294966296, .pthread_mutex_unlock 1]
    ∧ (704 : Int) ≠ 4294968 * 1000
    ∧ (4294966296 : Int) ≠ INT_MAX * 1000 := by
  have ht := threadfunc_trace_succeeded 7 long_wait_world
  have he := emitted_of_trace_eq _ _ _ ht
  rw [he]
  refine ⟨⟨rfl, rfl⟩, ?_, by decide, by decide⟩
  simp [operations, Event.is_log, long_wait_world, to_useconds_t, int_mul, wrap_int]

/-! ## Several workers and the mutex library: mutual exclusion -/

/-- The pieces of `worker_step`, run one after the other, are `threadfunc`. -/
theorem worker_run_eq_threadfunc (lock_rc unlock_rc : Int) (p : Ptr) (w : World) :
    worker_run lock_rc unlock_rc p 5 .entry w = (threadfunc lock_rc unlock_rc p w).2 := by
  by_cases h1 : lock_rc = 0 <;> by_cases h2 : unlock_rc = 0 <;>
    simp [worker_run, worker_step, threadfunc, h1, h2]

/-- What one piece does, as far as the mutex library and the counter are
concerned: it writes no mutex field; it calls `pthread_mutex_lock` exactly when
it starts at `before_lock`, and `pthread_mutex_unlock` exactly when it starts at
`before_unlock`, both on the mutex of its descriptor; and it ends inside the
lock call exactly in the first case. -/
theorem worker_step_calls (rc : Int) (p : Ptr) (pc pc2 : Pc) (w w2 : World)
    (h : worker_step rc p pc w = some (pc2, w2)) :
    (∀ q, (w2.mem q).mutex = (w.mem q).mutex)
    ∧ lock_request (emitted w w2) = (if pc = .before_lock then some (w.mem p).mutex else none)
    ∧ unlock_request (emitted w w2)
        = (if pc = .before_unlock then some (w.mem p).mutex else none)
    ∧ (pc2 = .in_lock ↔ pc = .before_lock)
    ∧ pc2.in_hold_window
        = (match pc with
          | .in_lock => decide (rc = 0)
          | .holding => true
          | _ => false) := by
  cases pc <;> by_cases hrc : rc = 0 <;> simp [worker_step, hrc] at h <;>
    (obtain ⟨h1, h2⟩ := h
     subst h1 h2
     refine ⟨?_, ?_, ?_, ?_, ?_⟩ <;>
       first
       | (intro q
          by_cases hq : q = p <;> simp [World.call, World.write, hq])
       | simp [emitted, World.call, World.write, lock_request, unlock_request,
           Pc.in_hold_window, hrc])

/-- Whether a worker holds a given mutex depends on the memory only through
the mutex fields. -/
theorem holds_congr (mem mem2 : Ptr → thread_data)
    (h : ∀ q, (mem2 q).mutex = (mem q).mutex) (m : Ptr) :
    holds mem2 m = holds mem m := by
  funext t
  simp [holds, h]

/-- Replacing one element of a list changes a count by what the element was
and what it becomes. -/
theorem countP_set_le (ts : List Task) (f : Task → Bool) (i : Nat) (t t2 : Task) (k : Nat)
    (hget : ts[i]? = some t)
    (hk : ts.countP f + (if f t2 then 1 else 0) ≤ k + (if f t then 1 else 0)) :
    (ts.set i t2).countP f ≤ k := by
  obtain ⟨hi, hgi⟩ := List.getElem?_eq_some.mp hget
  have hle := List.boole_getElem_le_countP f ts i hi
  rw [List.countP_set _ _ _ _ hi]
  simp only [hgi] at hle ⊢
  omega

/-- A move keeps the system coherent. -/
theorem System.step_preserves (s s2 : System) (i : Nat) (rc : Int)
    (h : s.step i rc = some s2) (hinv : s.coherent) : s2.coherent := by
  unfold System.step at h
  split at h
  · exact absurd h (by simp)
  · rename_i t hget
    split_ifs at h with hb
    split at h
    · exact absurd h (by simp)
    · rename_i pc2 w2 heq
      simp only [Option.some.injEq] at h
      subst h
      obtain ⟨hmem, hlock, hunlock, hpc, hwin⟩ := worker_step_calls rc _ _ _ _ _ heq
      have htmem : t ∈ s.tasks := List.getElem?_mem hget
      have hw := hinv.1 t htmem
      have hb1 : ∀ m, (s.locked m).toNat ≤ 1 := fun m => Bool.toNat_le _
      constructor
      · intro t2 ht2
        rcases List.mem_or_eq_of_mem_set ht2 with hold | hnew
        · simpa [hmem] using hinv.1 t2 hold
        · subst hnew
          simp only [hlock, hmem]
          by_cases hbl : t.pc = .before_lock
          · simp [hbl, hpc.mpr hbl]
          · have : pc2 ≠ .in_lock := fun hc => hbl (hpc.mp hc)
            simp [hbl, this]
      · intro m
        have hG := hinv.2 m
        have hB := hb1 m
        show List.countP (holds w2.mem m) _ ≤ _
        rw [holds_congr _ _ hmem m]
        refine countP_set_le _ _ _ _ _ _ hget ?_
        unfold System.holders_of at hG
        rcases t with ⟨pc, p, waiting⟩
        simp only at hw hwin hlock hunlock hb heq hpc
        subst hw
        have hone := List.boole_getElem_le_countP (holds s.world.mem m) s.tasks i
          (List.getElem?_eq_some.mp hget).1
        rw [(List.getElem?_eq_some.mp hget).2] at hone
        generalize List.countP (holds s.world.mem m) s.tasks = n at hG hone ⊢
        by_cases hkm : (s.world.mem p).mutex = m
        · subst hkm
          cases hl : s.locked (s.world.mem p).mutex <;> cases pc <;> by_cases hrc : rc = 0 <;>
            (simp_all [holds, Pc.in_hold_window, after_lock, after_unlock, set_mutex,
               lock_must_wait]
             try omega)
        · have hkm2 : ¬ m = (s.world.mem p).mutex := fun hc => hkm hc.symm
          cases hl : s.locked m <;> cases pc <;> by_cases hrc : rc = 0 <;>
            simp_all [holds, Pc.in_hold_window, after_lock, after_unlock, set_mutex,
              lock_must_wait]

/-- A pick keeps the system coherent. -/
theorem System.pick_preserves (s : System) (c : Nat × Int) (hinv : s.coherent) :
    (s.pick c).coherent := by
  unfold System.pick
  cases h : s.step c.1 c.2 with
  | none => simpa using hinv
  | some s2 => simpa using System.step_preserves s s2 c.1 c.2 h hinv

/-- A run keeps the system coherent. -/
theorem System.run_preserves (schedule : List (Nat × Int)) (s : System) (hinv : s.coherent) :
    (s.run schedule).coherent := by
  induction schedule generalizing s with
  | nil => simpa [System.run] using hinv
  | cons c cs ih =>
    have := ih (s.pick c) (System.pick_preserves s c hinv)
    simpa [System.run] using this

/-- The system is coherent when the workers have just been started. -/
theorem System.init_coherent (locked : Ptr → Bool) (w : World) (ps : List Ptr) :
    (System.init locked w ps).coherent := by
  constructor
  · intro t ht
    simp only [System.init, List.mem_map] at ht
    obtain ⟨p, _, hp⟩ := ht
    subst hp
    simp
  · intro m
    have : (System.init locked w ps).holders_of m = 0 := by
      simp [System.holders_of, System.init, holds, Pc.in_hold_window]
    rw [this]
    exact Nat.zero_le _

/-- A move leaves every worker on the descriptor it was started on, and the
mutex that descriptor names is the same as before. -/
theorem System.step_same_mutex (s s2 : System) (i : Nat) (rc : Int) (m : Ptr)
    (h : s.step i rc = some s2)
    (hm : ∀ t ∈ s.tasks, (s.world.mem t.thread_param).mutex = m) :
    ∀ t ∈ s2.tasks, (s2.world.mem t.thread_param).mutex = m := by
  unfold System.step at h
  split at h
  · exact absurd h (by simp)
  · rename_i t hget
    split_ifs at h with hb
    split at h
    · exact absurd h (by simp)
    · rename_i pc2 w2 heq
      simp only [Option.some.injEq] at h
      subst h
      have hmem := (worker_step_calls rc _ _ _ _ _ heq).1
      intro t2 ht2
      rcases List.mem_or_eq_of_mem_set ht2 with hold | hnew
      · simpa [hmem] using hm t2 hold
      · subst hnew
        simpa [hmem] using hm t (List.getElem?_mem hget)

/-- A run leaves every worker on a descriptor that names the mutex it named at
the start. -/
theorem System.run_same_mutex (schedule : List (Nat × Int)) (s : System) (m : Ptr)
    (hm : ∀ t ∈ s.tasks, (s.world.mem t.thread_param).mutex = m) :
    ∀ t ∈ (s.run schedule).tasks, ((s.run schedule).world.mem t.thread_param).mutex = m := by
  induction schedule generalizing s with
  | nil => simpa [System.run] using hm
  | cons c cs ih =>
    have hpick : ∀ t ∈ (s.pick c).tasks, ((s.pick c).world.mem t.thread_param).mutex = m := by
      unfold System.pick
      cases h : s.step c.1 c.2 with
      | none => simpa using hm
      | some s2 => simpa using System.step_same_mutex s s2 c.1 c.2 m h hm
    have := ih (s.pick c) hpick
    simpa [System.run] using this

/-- When every worker's descriptor names mutex `m`, the workers in the hold
window are the workers that hold `m`. -/
theorem System.holders_eq_holders_of (s : System) (m : Ptr)
    (hm : ∀ t ∈ s.tasks, (s.world.mem t.thread_param).mutex = m) :
    s.holders = s.holders_of m := by
  unfold System.holders System.holders_of
  apply List.countP_congr
  intro t ht
  simp [holds, hm t ht]

/-- For every mutex, whatever mutexes the descriptors name, at most one worker
holds it at any moment of any run, and none while it is free. -/
theorem holders_of_le_one (locked : Ptr → Bool) (w : World) (ps : List Ptr)
    (schedule : List (Nat × Int)) (m : Ptr) :
    ((System.init locked w ps).run schedule).holders_of m ≤ 1
    ∧ ((System.init locked w ps).run schedule).holders_of m
        ≤ (((System.init locked w ps).run schedule).locked m).toNat := by
  have h := (System.run_preserves schedule _ (System.init_coherent locked w ps)).2 m
  exact ⟨le_trans h (Bool.toNat_le _), h⟩

/-- Claim C7: for any number of workers started on descriptors that all name
the same mutex `m`, whatever the state of the mutexes and the rest of the
descriptors at the start, and at every moment of every interleaving of the
workers' moves, with every return value the mutex calls can give, at most one
worker is between a lock call that returned `0` and its unlock call; and none
is while `m` is free. -/
theorem mutual_exclusion (locked : Ptr → Bool) (w : World) (ps : List Ptr) (m : Ptr)
    (schedule : List (Nat × Int)) (k : Nat)
    (h : ∀ p ∈ ps, (w.mem p).mutex = m) :
    ((System.init locked w ps).run (schedule.take k)).holders ≤ 1
    ∧ ((System.init locked w ps).run (schedule.take k)).holders
        ≤ (((System.init locked w ps).run (schedule.take k)).locked m).toNat := by
  have h0 : ∀ t ∈ (System.init locked w ps).tasks,
      ((System.init locked w ps).world.mem t.thread_param).mutex = m := by
    intro t ht
    simp only [System.init, List.mem_map] at ht
    obtain ⟨p, hp, hpt⟩ := ht
    subst hpt
    exact h p hp
  have hsame := System.run_same_mutex (schedule.take k) _ m h0
  have hco := (System.run_preserves (schedule.take k) _ (System.init_coherent locked w ps)).2 m
  rw [System.holders_eq_holders_of _ m hsame]
  exact ⟨le_trans hco (Bool.toNat_le _), hco⟩

/-- Two workers on mutex 1, both inside their lock call; the first gets `0`
back and the second is picked twice for the same: one worker in the hold
window. -/
theorem mutual_exclusion_witness :
    (∀ p ∈ [7, 8], (sample_world.mem p).mutex = 1)
    ∧ ((System.init all_free sample_world [7, 8]).run
        (List.take 6 [(0, 0), (1, 0), (0, 0), (1, 0), (0, 0), (1, 0), (1, 0)])).holders ≤ 1
    ∧ ((System.init all_free sample_world [7, 8]).run
        (List.take 6 [(0, 0), (1, 0), (0, 0), (1, 0), (0, 0), (1, 0), (1, 0)])).holders
        ≤ (((System.init all_free sample_world [7, 8]).run
            (List.take 6 [(0, 0), (1, 0), (0, 0), (1, 0), (0, 0), (1, 0), (1, 0)])).locked
              1).toNat :=
  ⟨by decide,
   mutual_exclusion all_free sample_world [7, 8] 1
     [(0, 0), (1, 0), (0, 0), (1, 0), (0, 0), (1, 0), (1, 0)] 6 (by decide)⟩

/-- The bound of one is reached, and a second worker then waits inside its
lock call: with two workers on mutex 1, once the first has got `0` back from
its lock call, picking the second for the same does not move it. Both lock
calls are in the trace. -/
theorem holders_one_reached :
    ((System.init all_free sample_world [7, 8]).run
        [(0, 0), (1, 0), (0, 0), (1, 0), (0, 0), (1, 0), (1, 0)]).holders = 1
    ∧ ((System.init all_free sample_world [7, 8]).run
        [(0, 0), (1, 0), (0, 0), (1, 0), (0, 0), (1, 0), (1, 0)]).tasks
        = [⟨.holding, 7, none⟩, ⟨.in_lock, 8, some 1⟩]
    ∧ operations ((System.init all_free sample_world [7, 8]).run
        [(0, 0), (1, 0), (0, 0), (1, 0), (0, 0), (1, 0), (1, 0)]).world.trace
        = [.usleep 100000, .usleep 100000, .pthread_mutex_lock 1, .pthread_mutex_lock 1] := by
  decide

/-- Workers on different mutexes do not exclude each other: with one worker on
mutex 7 and one on mutex 8, both get `0` back from their lock calls and both
are in the hold window. -/
theorem holders_two_on_two_mutexes :
    ((System.init all_free own_mutex_world [7, 8]).run
        [(0, 0), (1, 0), (0, 0), (1, 0), (0, 0), (1, 0)]).holders = 2
    ∧ ((System.init all_free own_mutex_world [7, 8]).run
        [(0, 0), (1, 0), (0, 0), (1, 0), (0, 0), (1, 0)]).tasks
        = [⟨.holding, 7, none⟩, ⟨.holding, 8, none⟩] := by
  decide

end Threading
